import Mathlib

/-!
Shallow embedding in Lean 4 of the fizzicks repository, which holds two
variants of a 3D point/vector algebra with a small kinematics layer:
src/classes.py (namespace Classes below) and src/fizzicks.py (namespace
Fizzicks below).  Numeric components are modelled as real numbers; Python
runtime errors (ZeroDivisionError on division by zero, IndexError on an
out-of-range list index) are modelled with Except.  Since both Vector
classes are immutable and every construction path goes through the
respective __init__, the derived attributes (ijk, magnitude) are modelled as
functions of the three stored components; for Point, whose setPoint method
mutates the receiver, the cached tuple xyz is kept as a stored field so that
cache updates are observable.
-/

/-- Runtime errors the embedded Python code can raise: ZeroDivisionError
from the division operator, IndexError from list indexing. -/
inductive Err where
  | divisionByZero : Err
  | indexError : Err

open Classical in
/-- Python division a / b: raises ZeroDivisionError when the denominator is
zero, otherwise yields the exact quotient. -/
noncomputable def pyDiv (a b : ℝ) : Except Err ℝ :=
  if b = 0 then Except.error Err.divisionByZero else Except.ok (a / b)

open Classical in
/-- Python built-in round to the nearest integer, on reals: round half to
even (bankers rounding), which is what Python uses for ties. -/
noncomputable def pyRoundInt (x : ℝ) : ℤ :=
  if Int.fract x = 1 / 2 then 2 * round (x / 2) else round x

/-- Python round(x, 3): round to 3 decimal places, half to even. -/
noncomputable def pyRound3 (x : ℝ) : ℝ :=
  (pyRoundInt (x * 1000) : ℝ) / 1000

/-- Python double indexing matrix[r][c] on a list of rows: an out-of-range
row or column index raises IndexError. -/
def pyEntry (m : List (List ℝ)) (r c : Nat) : Except Err ℝ :=
  match m[r]? with
  | none => Except.error Err.indexError
  | some row =>
    match row[c]? with
    | none => Except.error Err.indexError
    | some a => Except.ok a

/-- One iteration of the linearTransform loop body of both source files:
matrix[x][0] * i + matrix[x][1] * j + matrix[x][2] * k, where any
out-of-range index raises IndexError. -/
def pyRow (m : List (List ℝ)) (x : Nat) (i j k : ℝ) : Except Err ℝ := do
  let a ← pyEntry m x 0
  let b ← pyEntry m x 1
  let c ← pyEntry m x 2
  pure (a * i + b * j + c * k)

/-- Row r of a matrix given as a list of rows, defaulting to the empty row
when r is out of range (a total accessor used only to state lemmas). -/
def rowD (m : List (List ℝ)) (r : Nat) : List ℝ :=
  (m[r]?).getD []

/-- Entry (r, c) of a matrix given as a list of rows, defaulting to 0 when
out of range (a total accessor used only to state lemmas). -/
def entD (m : List (List ℝ)) (r c : Nat) : ℝ :=
  ((rowD m r)[c]?).getD 0

/-- The shape precondition under which the linearTransform loop of the
source reads only in-range indices: at least 3 rows, and each of the first
three rows has at least 3 entries.  The source never checks this. -/
def rows3ok (m : List (List ℝ)) : Prop :=
  3 ≤ m.length ∧ 3 ≤ (rowD m 0).length ∧ 3 ≤ (rowD m 1).length ∧
    3 ≤ (rowD m 2).length

/-- A concrete 4 x 4 matrix (the identity), used as input to
linearTransform below. -/
def m4 : List (List ℝ) :=
  [[1, 0, 0, 0], [0, 1, 0, 0], [0, 0, 1, 0], [0, 0, 0, 1]]

/-- A concrete malformed matrix with 2 rows, used as input to
linearTransform below. -/
def mBad : List (List ℝ) :=
  [[1, 2], [3]]

namespace Classes

/-- Point of src/classes.py (lines 3-43): three coordinates and the cached
tuple view xyz set by __init__. -/
structure Point where
  x : ℝ
  y : ℝ
  z : ℝ
  xyz : ℝ × ℝ × ℝ

/-- Point.__init__ of classes.py: stores x, y, z and caches xyz. -/
def Point.init (x y z : ℝ) : Point :=
  ⟨x, y, z, (x, y, z)⟩

/-- Vector of src/classes.py (lines 46-119): three components; ijk and
magnitude are set by __init__ from i, j, k and the class is immutable, so
they are modelled as derived functions. -/
structure Vector where
  i : ℝ
  j : ℝ
  k : ℝ

/-- Vector.__init__ of classes.py restricted to the stored components. -/
def Vector.init (i j k : ℝ) : Vector :=
  ⟨i, j, k⟩

/-- The ijk tuple attribute set by Vector.__init__. -/
def Vector.ijk (v : Vector) : ℝ × ℝ × ℝ :=
  (v.i, v.j, v.k)

/-- The magnitude attribute set by Vector.__init__:
sqrt(i ** 2 + j ** 2 + k ** 2). -/
noncomputable def Vector.magnitude (v : Vector) : ℝ :=
  Real.sqrt (v.i ^ 2 + v.j ^ 2 + v.k ^ 2)

/-- Point.calculateVectorFrom of classes.py (lines 16-22): self minus the
argument, componentwise, as a Vector. -/
def Point.calculateVectorFrom (self point : Point) : Vector :=
  Vector.init (self.x - point.x) (self.y - point.y) (self.z - point.z)

/-- Point.addVector of classes.py (lines 24-29). -/
def Point.addVector (self : Point) (vector : Vector) : Point :=
  Point.init (self.x + vector.i) (self.y + vector.j) (self.z + vector.k)

/-- Point.subtractVector of classes.py (lines 31-36). -/
def Point.subtractVector (self : Point) (vector : Vector) : Point :=
  Point.init (self.x - vector.i) (self.y - vector.j) (self.z - vector.k)

/-- Point.setPoint of classes.py (lines 38-43): mutates the coordinates and
the cached tuple and returns True; modelled as the updated Point paired with
the returned Bool. -/
def Point.setPoint (self : Point) (x y z : ℝ) : Point × Bool :=
  (⟨x, y, z, (x, y, z)⟩, true)

/-- Argument of Vector.scale.  The source dispatches with try/except on
whether the argument has i, j, k attributes: the try branch fires exactly
when the argument is a Vector, the except branch handles a scalar. -/
inductive ScaleArg where
  | vec : Vector → ScaleArg
  | scalar : ℝ → ScaleArg

/-- Vector.scale of classes.py (lines 87-98): elementwise product when the
argument is a Vector, uniform scalar multiple when it is a number. -/
def Vector.scale (self : Vector) : ScaleArg → Vector
  | ScaleArg.vec w => Vector.init (self.i * w.i) (self.j * w.j) (self.k * w.k)
  | ScaleArg.scalar s => Vector.init (self.i * s) (self.j * s) (self.k * s)

/-- Vector.subtractVector of classes.py (lines 59-63). -/
def Vector.subtractVector (self vector : Vector) : Vector :=
  Vector.init (self.i - vector.i) (self.j - vector.j) (self.k - vector.k)

/-- Vector.addVector of classes.py (lines 65-69). -/
def Vector.addVector (self vector : Vector) : Vector :=
  Vector.init (self.i + vector.i) (self.j + vector.j) (self.k + vector.k)

/-- Vector.linearTransform of classes.py (lines 71-85): for x in range(3)
compute matrix[x][0]*i + matrix[x][1]*j + matrix[x][2]*k, then build the
vector of the three values. -/
def Vector.linearTransform (self : Vector) (matrix : List (List ℝ)) :
    Except Err Vector := do
  let v0 ← pyRow matrix 0 self.i self.j self.k
  let v1 ← pyRow matrix 1 self.i self.j self.k
  let v2 ← pyRow matrix 2 self.i self.j self.k
  pure (Vector.init v0 v1 v2)

/-- Vector.dotProduct of classes.py (lines 100-102). -/
def Vector.dotProduct (self vector : Vector) : ℝ :=
  self.i * vector.i + self.j * vector.j + self.k * vector.k

/-- Vector.crossProduct of classes.py (lines 104-109). -/
def Vector.crossProduct (self vector : Vector) : Vector :=
  Vector.init (self.j * vector.k - self.k * vector.j)
    (self.k * vector.i - self.i * vector.k)
    (self.i * vector.j - self.j * vector.i)

/-- Vector.scalarProjectionOnVector of classes.py (lines 111-113):
dotProduct(vector) / vector.magnitude. -/
noncomputable def Vector.scalarProjectionOnVector (self vector : Vector) :
    Except Err ℝ :=
  pyDiv (self.dotProduct vector) vector.magnitude

/-- Vector.vectorProjectionOnVector of classes.py (lines 115-119):
scalar = round(dotProduct(vector) / vector.magnitude ** 2, 3), then the
argument is scaled elementwise by Vector(scalar, scalar, scalar). -/
noncomputable def Vector.vectorProjectionOnVector (self vector : Vector) :
    Except Err Vector := do
  let s ← pyDiv (self.dotProduct vector) (vector.magnitude ^ 2)
  let scalar := pyRound3 s
  pure (vector.scale (ScaleArg.vec (Vector.init scalar scalar scalar)))

/-- Physical_Object of classes.py (lines 121-147). -/
structure Physical_Object where
  mass : ℝ
  position : Point
  velocity : Vector

/-- Physical_Object.calculateAcceleration of classes.py (lines 143-147):
forceVector.scale(self.mass) - the force is scaled BY the mass (a number,
so the scalar branch of scale fires), not by its reciprocal. -/
def Physical_Object.calculateAcceleration (self : Physical_Object)
    (forceVector : Vector) : Vector :=
  forceVector.scale (ScaleArg.scalar self.mass)

end Classes

namespace Fizzicks

/-- Point of src/fizzicks.py (lines 18-65): coordinates, the cached tuple
xyz, and the three collision zone extents. -/
structure Point where
  x : ℝ
  y : ℝ
  z : ℝ
  xyz : ℝ × ℝ × ℝ
  collision_zone_width : ℝ
  collision_zone_height : ℝ
  collision_zone_depth : ℝ

/-- Point.__init__ of fizzicks.py (lines 20-27) with all arguments
explicit. -/
def Point.init (x y z width height depth : ℝ) : Point :=
  ⟨x, y, z, (x, y, z), width, height, depth⟩

/-- Point(x, y, z) of fizzicks.py using the default extents
width = height = depth = 1. -/
def Point.initD (x y z : ℝ) : Point :=
  Point.init x y z 1 1 1

/-- Vector of src/fizzicks.py (lines 68-179): three components; ijk and
magnitude are set by __init__ from i, j, k and the class is immutable, so
they are modelled as derived functions. -/
structure Vector where
  i : ℝ
  j : ℝ
  k : ℝ

/-- Vector.__init__ of fizzicks.py restricted to the stored components. -/
def Vector.init (i j k : ℝ) : Vector :=
  ⟨i, j, k⟩

/-- The ijk tuple attribute set by Vector.__init__. -/
def Vector.ijk (v : Vector) : ℝ × ℝ × ℝ :=
  (v.i, v.j, v.k)

/-- The magnitude attribute set by Vector.__init__:
sqrt(i ** 2 + j ** 2 + k ** 2). -/
noncomputable def Vector.magnitude (v : Vector) : ℝ :=
  Real.sqrt (v.i ^ 2 + v.j ^ 2 + v.k ^ 2)

/-- Point.calculateVectorFrom of fizzicks.py (lines 34-40). -/
def Point.calculateVectorFrom (self point : Point) : Vector :=
  Vector.init (self.x - point.x) (self.y - point.y) (self.z - point.z)

/-- Point.addVector of fizzicks.py (lines 42-49): builds Point(x, y, z)
with the default collision zone extents, whatever the extents of the
receiver were. -/
def Point.addVector (self : Point) (vector : Vector) : Point :=
  Point.initD (self.x + vector.i) (self.y + vector.j) (self.z + vector.k)

/-- Point.subtractVector of fizzicks.py (lines 51-57): likewise builds
Point(x, y, z) with the default extents. -/
def Point.subtractVector (self : Point) (vector : Vector) : Point :=
  Point.initD (self.x - vector.i) (self.y - vector.j) (self.z - vector.k)

/-- Point.setPoint of fizzicks.py (lines 59-65): mutates the coordinates
and the cached tuple, leaves the extents alone and returns True; modelled as
the updated Point paired with the returned Bool. -/
def Point.setPoint (self : Point) (x y z : ℝ) : Point × Bool :=
  (⟨x, y, z, (x, y, z), self.collision_zone_width, self.collision_zone_height,
    self.collision_zone_depth⟩, true)

/-- Argument of Vector.scale, as in the Classes namespace: the try branch
of the source fires exactly when the argument is a Vector. -/
inductive ScaleArg where
  | vec : Vector → ScaleArg
  | scalar : ℝ → ScaleArg

/-- Vector.scale of fizzicks.py (lines 141-154): elementwise product when
the argument is a Vector, uniform scalar multiple when it is a number. -/
def Vector.scale (self : Vector) : ScaleArg → Vector
  | ScaleArg.vec w => Vector.init (self.i * w.i) (self.j * w.j) (self.k * w.k)
  | ScaleArg.scalar s => Vector.init (self.i * s) (self.j * s) (self.k * s)

/-- Vector.subtractVector of fizzicks.py (lines 81-86). -/
def Vector.subtractVector (self vector : Vector) : Vector :=
  Vector.init (self.i - vector.i) (self.j - vector.j) (self.k - vector.k)

/-- Vector.addVector of fizzicks.py (lines 88-93). -/
def Vector.addVector (self vector : Vector) : Vector :=
  Vector.init (self.i + vector.i) (self.j + vector.j) (self.k + vector.k)

/-- Vector.linearTransform of fizzicks.py (lines 95-109), identical to the
classes.py variant. -/
def Vector.linearTransform (self : Vector) (matrix : List (List ℝ)) :
    Except Err Vector := do
  let v0 ← pyRow matrix 0 self.i self.j self.k
  let v1 ← pyRow matrix 1 self.i self.j self.k
  let v2 ← pyRow matrix 2 self.i self.j self.k
  pure (Vector.init v0 v1 v2)

/-- Vector.dotProduct of fizzicks.py (lines 156-159). -/
def Vector.dotProduct (self vector : Vector) : ℝ :=
  self.i * vector.i + self.j * vector.j + self.k * vector.k

/-- Vector.crossProduct of fizzicks.py (lines 161-167). -/
def Vector.crossProduct (self vector : Vector) : Vector :=
  Vector.init (self.j * vector.k - self.k * vector.j)
    (self.k * vector.i - self.i * vector.k)
    (self.i * vector.j - self.j * vector.i)

/-- Vector.scalarProjectionOnVector of fizzicks.py (lines 169-172):
dotProduct(vector) / vector.magnitude. -/
noncomputable def Vector.scalarProjectionOnVector (self vector : Vector) :
    Except Err ℝ :=
  pyDiv (self.dotProduct vector) vector.magnitude

/-- Vector.vectorProjectionOnVector of fizzicks.py (lines 174-179):
scalar = scalarProjectionOnVector(vector) / vector.magnitude, then the
argument is scaled elementwise by Vector(scalar, scalar, scalar). -/
noncomputable def Vector.vectorProjectionOnVector (self vector : Vector) :
    Except Err Vector := do
  let sp ← self.scalarProjectionOnVector vector
  let scalar ← pyDiv sp vector.magnitude
  pure (vector.scale (ScaleArg.vec (Vector.init scalar scalar scalar)))

/-- Vector.rotate of fizzicks.py (lines 112-134): builds the three axis
rotation matrices, then discards them and applies an all-ones placeholder
matrix via linearTransform (the source comment on line 128 admits the
matrix should be the product of the three). -/
noncomputable def Vector.rotate (self : Vector)
    (x_angle y_angle z_angle : ℝ) : Except Err Vector :=
  let temp_vector := Vector.init self.i self.j self.k
  let rotation_matrix_x : List (List ℝ) :=
    [[1, 0, 0],
     [0, Real.cos x_angle, -Real.sin x_angle],
     [0, Real.sin x_angle, Real.cos x_angle]]
  let rotation_matrix_y : List (List ℝ) :=
    [[Real.cos y_angle, 0, Real.sin y_angle],
     [0, 1, 0],
     [-Real.sin y_angle, 0, Real.cos y_angle]]
  let rotation_matrix_z : List (List ℝ) :=
    [[Real.cos z_angle, -Real.sin z_angle, 0],
     [Real.sin z_angle, Real.cos z_angle, 0],
     [0, 0, 1]]
  let rotation_matrix : List (List ℝ) := [[1, 1, 1], [1, 1, 1], [1, 1, 1]]
  temp_vector.linearTransform rotation_matrix

/-- Physical_Object of fizzicks.py (lines 181-210). -/
structure Physical_Object where
  mass : ℝ
  position : Point
  velocity : Vector
  restitution : ℝ

/-- Physical_Object.calculateAcceleration of fizzicks.py (lines 206-210):
force_vector.scale(1 / self.mass) - the division happens first and raises
ZeroDivisionError when the mass is zero, then the scalar branch of scale
fires. -/
noncomputable def Physical_Object.calculateAcceleration
    (self : Physical_Object) (force_vector : Vector) : Except Err Vector := do
  let r ← pyDiv 1 self.mass
  pure (force_vector.scale (ScaleArg.scalar r))

end Fizzicks

section Lemmas

@[simp]
lemma ok_bind {α β : Type} (a : α) (f : α → Except Err β) :
    (Except.ok a >>= f) = f a := rfl

@[simp]
lemma error_bind {α β : Type} (e : Err) (f : α → Except Err β) :
    ((Except.error e : Except Err α) >>= f) = Except.error e := rfl

@[simp]
lemma pure_eq_ok {α : Type} (a : α) : (pure a : Except Err α) = Except.ok a :=
  rfl

lemma pyDiv_zero (a : ℝ) : pyDiv a 0 = Except.error Err.divisionByZero := by
  simp [pyDiv]

lemma pyDiv_ok (a b : ℝ) (hb : b ≠ 0) : pyDiv a b = Except.ok (a / b) := by
  simp [pyDiv, hb]

lemma pyEntry_eq (m : List (List ℝ)) (r c : Nat) :
    pyEntry m r c =
      if r < m.length ∧ c < (rowD m r).length then Except.ok (entD m r c)
      else Except.error Err.indexError := by
  rcases h1 : m[r]? with _ | row
  · have hr : m.length ≤ r := List.getElem?_eq_none_iff.mp h1
    have hrow : rowD m r = [] := by simp [rowD, h1]
    rw [if_neg (by omega)]
    simp [pyEntry, h1]
  · have hr : r < m.length := by
      rcases List.getElem?_eq_some_iff.mp h1 with ⟨h, _⟩
      exact h
    have hrow : rowD m r = row := by simp [rowD, h1]
    rcases h2 : row[c]? with _ | a
    · have hc : row.length ≤ c := List.getElem?_eq_none_iff.mp h2
      rw [if_neg (by rw [hrow]; omega)]
      simp [pyEntry, h1, h2]
    · have hc : c < row.length := by
        rcases List.getElem?_eq_some_iff.mp h2 with ⟨h, _⟩
        exact h
      rw [if_pos (by rw [hrow]; exact ⟨hr, hc⟩)]
      simp [pyEntry, h1, h2, entD, hrow]

lemma pyRow_eq_ok (m : List (List ℝ)) (x : Nat) (i j k : ℝ)
    (hx : x < m.length) (hlen : 3 ≤ (rowD m x).length) :
    pyRow m x i j k =
      Except.ok (entD m x 0 * i + entD m x 1 * j + entD m x 2 * k) := by
  have h0 : 0 < (rowD m x).length := by omega
  have h1 : 1 < (rowD m x).length := by omega
  have h2 : 2 < (rowD m x).length := by omega
  simp [pyRow, pyEntry_eq, hx, h0, h1, h2]

lemma pyRow_eq_err (m : List (List ℝ)) (x : Nat) (i j k : ℝ)
    (h : ¬(x < m.length ∧ 3 ≤ (rowD m x).length)) :
    pyRow m x i j k = Except.error Err.indexError := by
  by_cases hx : x < m.length
  · have hlen : (rowD m x).length < 3 := by omega
    have hcase : (rowD m x).length = 0 ∨ (rowD m x).length = 1 ∨
        (rowD m x).length = 2 := by omega
    rcases hcase with hL | hL | hL <;>
      simp [pyRow, pyEntry_eq, hx, hL]
  · simp [pyRow, pyEntry_eq, hx]

open Classical in
lemma fizzicks_linearTransform_eq (v : Fizzicks.Vector)
    (m : List (List ℝ)) :
    v.linearTransform m =
      if rows3ok m then
        Except.ok (Fizzicks.Vector.init
          (entD m 0 0 * v.i + entD m 0 1 * v.j + entD m 0 2 * v.k)
          (entD m 1 0 * v.i + entD m 1 1 * v.j + entD m 1 2 * v.k)
          (entD m 2 0 * v.i + entD m 2 1 * v.j + entD m 2 2 * v.k))
      else Except.error Err.indexError := by
  by_cases h : rows3ok m
  · obtain ⟨hl, h0, h1, h2⟩ := h
    rw [if_pos ⟨hl, h0, h1, h2⟩]
    rw [Fizzicks.Vector.linearTransform,
      pyRow_eq_ok m 0 v.i v.j v.k (by omega) h0,
      pyRow_eq_ok m 1 v.i v.j v.k (by omega) h1,
      pyRow_eq_ok m 2 v.i v.j v.k (by omega) h2]
    simp only [ok_bind]
    rfl
  · rw [if_neg h]
    by_cases h0 : 0 < m.length ∧ 3 ≤ (rowD m 0).length
    · by_cases h1 : 1 < m.length ∧ 3 ≤ (rowD m 1).length
      · have h2 : ¬(2 < m.length ∧ 3 ≤ (rowD m 2).length) := by
          intro hc
          exact h ⟨by omega, h0.2, h1.2, hc.2⟩
        rw [Fizzicks.Vector.linearTransform,
          pyRow_eq_ok m 0 v.i v.j v.k h0.1 h0.2,
          pyRow_eq_ok m 1 v.i v.j v.k h1.1 h1.2,
          pyRow_eq_err m 2 v.i v.j v.k h2]
        simp only [ok_bind, error_bind]
      · rw [Fizzicks.Vector.linearTransform,
          pyRow_eq_ok m 0 v.i v.j v.k h0.1 h0.2,
          pyRow_eq_err m 1 v.i v.j v.k h1]
        simp only [ok_bind, error_bind]
    · rw [Fizzicks.Vector.linearTransform, pyRow_eq_err m 0 v.i v.j v.k h0]
      simp only [error_bind]

open Classical in
lemma classes_linearTransform_eq (v : Classes.Vector)
    (m : List (List ℝ)) :
    v.linearTransform m =
      if rows3ok m then
        Except.ok (Classes.Vector.init
          (entD m 0 0 * v.i + entD m 0 1 * v.j + entD m 0 2 * v.k)
          (entD m 1 0 * v.i + entD m 1 1 * v.j + entD m 1 2 * v.k)
          (entD m 2 0 * v.i + entD m 2 1 * v.j + entD m 2 2 * v.k))
      else Except.error Err.indexError := by
  by_cases h : rows3ok m
  · obtain ⟨hl, h0, h1, h2⟩ := h
    rw [if_pos ⟨hl, h0, h1, h2⟩]
    rw [Classes.Vector.linearTransform,
      pyRow_eq_ok m 0 v.i v.j v.k (by omega) h0,
      pyRow_eq_ok m 1 v.i v.j v.k (by omega) h1,
      pyRow_eq_ok m 2 v.i v.j v.k (by omega) h2]
    simp only [ok_bind]
    rfl
  · rw [if_neg h]
    by_cases h0 : 0 < m.length ∧ 3 ≤ (rowD m 0).length
    · by_cases h1 : 1 < m.length ∧ 3 ≤ (rowD m 1).length
      · have h2 : ¬(2 < m.length ∧ 3 ≤ (rowD m 2).length) := by
          intro hc
          exact h ⟨by omega, h0.2, h1.2, hc.2⟩
        rw [Classes.Vector.linearTransform,
          pyRow_eq_ok m 0 v.i v.j v.k h0.1 h0.2,
          pyRow_eq_ok m 1 v.i v.j v.k h1.1 h1.2,
          pyRow_eq_err m 2 v.i v.j v.k h2]
        simp only [ok_bind, error_bind]
      · rw [Classes.Vector.linearTransform,
          pyRow_eq_ok m 0 v.i v.j v.k h0.1 h0.2,
          pyRow_eq_err m 1 v.i v.j v.k h1]
        simp only [ok_bind, error_bind]
    · rw [Classes.Vector.linearTransform, pyRow_eq_err m 0 v.i v.j v.k h0]
      simp only [error_bind]

end Lemmas

/-- C5 counterexample: linearTransform does not require a 3 x 3 matrix.
The concrete 4 x 4 identity matrix m4 has row count 4, yet
linearTransform returns a vector instead of failing with any error. -/
theorem C5_counterexample :
    m4.length = 4 ∧
    Fizzicks.Vector.linearTransform (Fizzicks.Vector.init 1 2 3) m4 =
      Except.ok (Fizzicks.Vector.init 1 2 3) := by
  constructor
  · rfl
  · have h : Fizzicks.Vector.linearTransform (Fizzicks.Vector.init 1 2 3) m4 =
        Except.ok (Fizzicks.Vector.init
          (1 * 1 + 0 * 2 + 0 * 3) (0 * 1 + 1 * 2 + 0 * 3)
          (0 * 1 + 0 * 2 + 1 * 3)) := rfl
    rw [h]
    norm_num

/-- C5 amended: in both source variants, linearTransform performs no
dimension validation.  Whenever the matrix has at least 3 rows and each of
its first three rows has at least 3 entries (rows3ok), it returns the vector
obtained from the top-left 3 x 3 block, even when the matrix is larger than
3 x 3; otherwise the unchecked index read fails with IndexError, not with a
DimensionMismatch error. -/
theorem C5_amended_holds (v : Fizzicks.Vector) (v2 : Classes.Vector)
    (m : List (List ℝ)) :
    (rows3ok m →
      v.linearTransform m =
        Except.ok (Fizzicks.Vector.init
          (entD m 0 0 * v.i + entD m 0 1 * v.j + entD m 0 2 * v.k)
          (entD m 1 0 * v.i + entD m 1 1 * v.j + entD m 1 2 * v.k)
          (entD m 2 0 * v.i + entD m 2 1 * v.j + entD m 2 2 * v.k)) ∧
      v2.linearTransform m =
        Except.ok (Classes.Vector.init
          (entD m 0 0 * v2.i + entD m 0 1 * v2.j + entD m 0 2 * v2.k)
          (entD m 1 0 * v2.i + entD m 1 1 * v2.j + entD m 1 2 * v2.k)
          (entD m 2 0 * v2.i + entD m 2 1 * v2.j + entD m 2 2 * v2.k))) ∧
    (¬rows3ok m →
      v.linearTransform m = Except.error Err.indexError ∧
      v2.linearTransform m = Except.error Err.indexError) := by
  constructor
  · intro h
    exact ⟨by rw [fizzicks_linearTransform_eq, if_pos h],
      by rw [classes_linearTransform_eq, if_pos h]⟩
  · intro h
    exact ⟨by rw [fizzicks_linearTransform_eq, if_neg h],
      by rw [classes_linearTransform_eq, if_neg h]⟩

/-- C5 witness: the amended theorem applied to the well-formed 4 x 4 matrix
m4 and to the malformed matrix mBad. -/
theorem C5_amended_witness :
    rows3ok m4 ∧ ¬rows3ok mBad ∧
    Fizzicks.Vector.linearTransform (Fizzicks.Vector.init 5 6 7) m4 =
      Except.ok (Fizzicks.Vector.init
        (entD m4 0 0 * 5 + entD m4 0 1 * 6 + entD m4 0 2 * 7)
        (entD m4 1 0 * 5 + entD m4 1 1 * 6 + entD m4 1 2 * 7)
        (entD m4 2 0 * 5 + entD m4 2 1 * 6 + entD m4 2 2 * 7)) ∧
    Classes.Vector.linearTransform (Classes.Vector.init 5 6 7) m4 =
      Except.ok (Classes.Vector.init
        (entD m4 0 0 * 5 + entD m4 0 1 * 6 + entD m4 0 2 * 7)
        (entD m4 1 0 * 5 + entD m4 1 1 * 6 + entD m4 1 2 * 7)
        (entD m4 2 0 * 5 + entD m4 2 1 * 6 + entD m4 2 2 * 7)) ∧
    Fizzicks.Vector.linearTransform (Fizzicks.Vector.init 5 6 7) mBad =
      Except.error Err.indexError ∧
    Classes.Vector.linearTransform (Classes.Vector.init 5 6 7) mBad =
      Except.error Err.indexError := by
  have hgood : rows3ok m4 := by
    refine ⟨by norm_num [m4], ?_, ?_, ?_⟩ <;> norm_num [m4, rowD]
  have hbad : ¬rows3ok mBad := by
    intro h
    have := h.1
    norm_num [mBad] at this
  obtain ⟨a, b⟩ := (C5_amended_holds (Fizzicks.Vector.init 5 6 7)
    (Classes.Vector.init 5 6 7) m4).1 hgood
  obtain ⟨c, d⟩ := (C5_amended_holds (Fizzicks.Vector.init 5 6 7)
    (Classes.Vector.init 5 6 7) mBad).2 hbad
  exact ⟨hgood, hbad, a, b, c, d⟩

/-- C6: for every pair of Points P and O (fizzicks.py variant), the Point
O.addVector(P.calculateVectorFrom(O)) has the same coordinates as P; the
round trip is exact in real arithmetic, hence within any floating-point
tolerance. -/
theorem C6_point_vector_round_trip (P O : Fizzicks.Point) :
    (O.addVector (P.calculateVectorFrom O)).x = P.x ∧
    (O.addVector (P.calculateVectorFrom O)).y = P.y ∧
    (O.addVector (P.calculateVectorFrom O)).z = P.z := by
  refine ⟨?_, ?_, ?_⟩ <;>
    simp [Fizzicks.Point.addVector, Fizzicks.Point.calculateVectorFrom,
      Fizzicks.Point.initD, Fizzicks.Point.init, Fizzicks.Vector.init]

/-- C7: the cross product of fizzicks.py is anti-commutative: for all
vectors a and b, a.crossProduct(b) equals b.crossProduct(a).scale(-1)
componentwise (the scalar branch of scale fires on the number -1). -/
theorem C7_cross_anticommutative (a b : Fizzicks.Vector) :
    a.crossProduct b =
      (b.crossProduct a).scale (Fizzicks.ScaleArg.scalar (-1)) := by
  simp only [Fizzicks.Vector.crossProduct, Fizzicks.Vector.scale,
    Fizzicks.Vector.init, Fizzicks.Vector.mk.injEq]
  refine ⟨by ring, by ring, by ring⟩

/-- C8: scale is overloaded on the dynamic type of its argument, in both
source files: with a Vector argument it returns the elementwise product,
with a scalar argument it multiplies every component uniformly. -/
theorem C8_scale_overload (v w : Fizzicks.Vector) (s : ℝ)
    (v2 w2 : Classes.Vector) (s2 : ℝ) :
    v.scale (Fizzicks.ScaleArg.vec w) =
        Fizzicks.Vector.init (v.i * w.i) (v.j * w.j) (v.k * w.k) ∧
    v.scale (Fizzicks.ScaleArg.scalar s) =
        Fizzicks.Vector.init (v.i * s) (v.j * s) (v.k * s) ∧
    v2.scale (Classes.ScaleArg.vec w2) =
        Classes.Vector.init (v2.i * w2.i) (v2.j * w2.j) (v2.k * w2.k) ∧
    v2.scale (Classes.ScaleArg.scalar s2) =
        Classes.Vector.init (v2.i * s2) (v2.j * s2) (v2.k * s2) :=
  ⟨rfl, rfl, rfl, rfl⟩

/-- C9: in the fizzicks.py variant, Point.addVector and Point.subtractVector
build the result with Point(x, y, z), so all three collision zone extents of
the result are the default value 1, whatever the extents of the receiver. -/
theorem C9_addVector_default_extents (P : Fizzicks.Point)
    (v : Fizzicks.Vector) :
    (P.addVector v).collision_zone_width = 1 ∧
    (P.addVector v).collision_zone_height = 1 ∧
    (P.addVector v).collision_zone_depth = 1 ∧
    (P.subtractVector v).collision_zone_width = 1 ∧
    (P.subtractVector v).collision_zone_height = 1 ∧
    (P.subtractVector v).collision_zone_depth = 1 :=
  ⟨rfl, rfl, rfl, rfl, rfl, rfl⟩

/-- C10: setPoint updates only the coordinate state: in both source
variants it sets x, y, z and the cached tuple xyz to the new values and
returns True, and in the fizzicks.py variant the three collision zone
extents are left unchanged. -/
theorem C10_setPoint_frame (P : Fizzicks.Point) (x y z : ℝ)
    (Q : Classes.Point) (a b c : ℝ) :
    (P.setPoint x y z).1.x = x ∧
    (P.setPoint x y z).1.y = y ∧
    (P.setPoint x y z).1.z = z ∧
    (P.setPoint x y z).1.xyz = (x, y, z) ∧
    (P.setPoint x y z).1.collision_zone_width = P.collision_zone_width ∧
    (P.setPoint x y z).1.collision_zone_height = P.collision_zone_height ∧
    (P.setPoint x y z).1.collision_zone_depth = P.collision_zone_depth ∧
    (P.setPoint x y z).2 = true ∧
    (Q.setPoint a b c).1.x = a ∧
    (Q.setPoint a b c).1.y = b ∧
    (Q.setPoint a b c).1.z = c ∧
    (Q.setPoint a b c).1.xyz = (a, b, c) ∧
    (Q.setPoint a b c).2 = true :=
  ⟨rfl, rfl, rfl, rfl, rfl, rfl, rfl, rfl, rfl, rfl, rfl, rfl, rfl⟩

/-- C2 (code bug): the rotate method of fizzicks.py promises in its own
docstring a vector of equal magnitude, but applies the all-ones placeholder
matrix instead of the composed rotation.  At v = Vector(1, 0, 0) with angles
(0, 0, 0) it returns (1, 1, 1), whose magnitude is sqrt 3, while the input
has magnitude 1, and sqrt 3 differs from 1: the rotation does not preserve
magnitude. -/
theorem C2_rotate_breaks_magnitude :
    Fizzicks.Vector.rotate (Fizzicks.Vector.init 1 0 0) 0 0 0 =
      Except.ok (Fizzicks.Vector.init 1 1 1) ∧
    Fizzicks.Vector.magnitude (Fizzicks.Vector.init 1 0 0) = 1 ∧
    Fizzicks.Vector.magnitude (Fizzicks.Vector.init 1 1 1) = Real.sqrt 3 ∧
    Real.sqrt 3 ≠ 1 := by
  refine ⟨?_, ?_, ?_, ?_⟩
  · have h : Fizzicks.Vector.rotate (Fizzicks.Vector.init 1 0 0) 0 0 0 =
        Except.ok (Fizzicks.Vector.init
          (1 * 1 + 1 * 0 + 1 * 0) (1 * 1 + 1 * 0 + 1 * 0)
          (1 * 1 + 1 * 0 + 1 * 0)) := rfl
    rw [h]
    norm_num
  · simp only [Fizzicks.Vector.magnitude, Fizzicks.Vector.init]
    rw [show ((1 : ℝ) ^ 2 + 0 ^ 2 + 0 ^ 2) = 1 by norm_num]
    exact Real.sqrt_one
  · simp only [Fizzicks.Vector.magnitude, Fizzicks.Vector.init]
    rw [show ((1 : ℝ) ^ 2 + 1 ^ 2 + 1 ^ 2) = 3 by norm_num]
  · rw [Ne, Real.sqrt_eq_one]
    norm_num

/-- C3 (code bug): acceleration from force.  The fizzicks.py variant scales
the force by 1 / mass as the claim states: at mass 2 and force (1, 0, 0) it
returns (1/2, 0, 0).  The classes.py variant instead scales the force BY the
mass: at the same input it returns (2, 0, 0), and 2 differs from 1/2. -/
theorem C3_acceleration_divergence :
    Fizzicks.Physical_Object.calculateAcceleration
        (Fizzicks.Physical_Object.mk 2 (Fizzicks.Point.initD 0 0 0)
          (Fizzicks.Vector.init 0 0 0) 1)
        (Fizzicks.Vector.init 1 0 0) =
      Except.ok (Fizzicks.Vector.init (1 / 2) 0 0) ∧
    Classes.Physical_Object.calculateAcceleration
        (Classes.Physical_Object.mk 2 (Classes.Point.init 0 0 0)
          (Classes.Vector.init 0 0 0))
        (Classes.Vector.init 1 0 0) =
      Classes.Vector.init 2 0 0 ∧
    (2 : ℝ) ≠ 1 / 2 := by
  refine ⟨?_, ?_, by norm_num⟩
  · simp only [Fizzicks.Physical_Object.calculateAcceleration]
    rw [pyDiv_ok 1 2 (by norm_num)]
    simp only [ok_bind]
    simp only [Fizzicks.Vector.scale, Fizzicks.Vector.init]
    norm_num
  · simp only [Classes.Physical_Object.calculateAcceleration,
      Classes.Vector.scale, Classes.Vector.init]
    norm_num

/-- C4: in both source variants, projecting on a reference vector of zero
magnitude makes the division raise ZeroDivisionError, which propagates to
the caller of scalarProjectionOnVector and of vectorProjectionOnVector; no
infinity or NaN is produced. -/
theorem C4_projection_zero_magnitude_error (v w : Fizzicks.Vector)
    (v2 w2 : Classes.Vector) (hw : Fizzicks.Vector.magnitude w = 0)
    (hw2 : Classes.Vector.magnitude w2 = 0) :
    v.scalarProjectionOnVector w = Except.error Err.divisionByZero ∧
    v.vectorProjectionOnVector w = Except.error Err.divisionByZero ∧
    v2.scalarProjectionOnVector w2 = Except.error Err.divisionByZero ∧
    v2.vectorProjectionOnVector w2 = Except.error Err.divisionByZero := by
  have h1 : v.scalarProjectionOnVector w = Except.error Err.divisionByZero := by
    simp only [Fizzicks.Vector.scalarProjectionOnVector]
    rw [hw, pyDiv_zero]
  have h3 : v2.scalarProjectionOnVector w2 =
      Except.error Err.divisionByZero := by
    simp only [Classes.Vector.scalarProjectionOnVector]
    rw [hw2, pyDiv_zero]
  refine ⟨h1, ?_, h3, ?_⟩
  · simp only [Fizzicks.Vector.vectorProjectionOnVector, h1, error_bind]
  · simp only [Classes.Vector.vectorProjectionOnVector]
    rw [hw2, show ((0 : ℝ) ^ 2) = 0 by norm_num, pyDiv_zero]
    simp only [error_bind]

/-- C4 witness: the zero vector has magnitude 0 and all four projection
operations fail with the DivisionByZero error on it. -/
theorem C4_projection_zero_magnitude_error_witness :
    Fizzicks.Vector.magnitude (Fizzicks.Vector.init 0 0 0) = 0 ∧
    Classes.Vector.magnitude (Classes.Vector.init 0 0 0) = 0 ∧
    Fizzicks.Vector.scalarProjectionOnVector (Fizzicks.Vector.init 1 2 3)
        (Fizzicks.Vector.init 0 0 0) = Except.error Err.divisionByZero ∧
    Fizzicks.Vector.vectorProjectionOnVector (Fizzicks.Vector.init 1 2 3)
        (Fizzicks.Vector.init 0 0 0) = Except.error Err.divisionByZero ∧
    Classes.Vector.scalarProjectionOnVector (Classes.Vector.init 1 2 3)
        (Classes.Vector.init 0 0 0) = Except.error Err.divisionByZero ∧
    Classes.Vector.vectorProjectionOnVector (Classes.Vector.init 1 2 3)
        (Classes.Vector.init 0 0 0) = Except.error Err.divisionByZero := by
  have hf : Fizzicks.Vector.magnitude (Fizzicks.Vector.init 0 0 0) = 0 := by
    simp only [Fizzicks.Vector.magnitude, Fizzicks.Vector.init]
    rw [show ((0 : ℝ) ^ 2 + 0 ^ 2 + 0 ^ 2) = 0 by norm_num]
    exact Real.sqrt_zero
  have hc : Classes.Vector.magnitude (Classes.Vector.init 0 0 0) = 0 := by
    simp only [Classes.Vector.magnitude, Classes.Vector.init]
    rw [show ((0 : ℝ) ^ 2 + 0 ^ 2 + 0 ^ 2) = 0 by norm_num]
    exact Real.sqrt_zero
  obtain ⟨a, b, c, d⟩ := C4_projection_zero_magnitude_error
    (Fizzicks.Vector.init 1 2 3) (Fizzicks.Vector.init 0 0 0)
    (Classes.Vector.init 1 2 3) (Classes.Vector.init 0 0 0) hf hc
  exact ⟨hf, hc, a, b, c, d⟩

lemma floor_thousand_third : ⌊(1000 : ℝ) / 3⌋ = 333 := by
  rw [Int.floor_eq_iff]
  norm_num

lemma pyRoundInt_thousand_third : pyRoundInt ((1000 : ℝ) / 3) = 333 := by
  have hfr : Int.fract ((1000 : ℝ) / 3) = 1 / 3 := by
    rw [← Int.self_sub_floor, floor_thousand_third]
    norm_num
  unfold pyRoundInt
  rw [if_neg (by rw [hfr]; norm_num)]
  rw [round_eq, Int.floor_eq_iff]
  norm_num

lemma pyRound3_one_third : pyRound3 ((1 : ℝ) / 3) = 333 / 1000 := by
  unfold pyRound3
  rw [show ((1 : ℝ) / 3 * 1000) = 1000 / 3 by norm_num,
    pyRoundInt_thousand_third]
  norm_num

lemma fizzicks_magnitude_300 :
    Fizzicks.Vector.magnitude (Fizzicks.Vector.init 3 0 0) = 3 := by
  simp only [Fizzicks.Vector.magnitude, Fizzicks.Vector.init]
  rw [show ((3 : ℝ) ^ 2 + 0 ^ 2 + 0 ^ 2) = 3 ^ 2 by norm_num]
  exact Real.sqrt_sq (by norm_num)

lemma classes_magnitude_300 :
    Classes.Vector.magnitude (Classes.Vector.init 3 0 0) = 3 := by
  simp only [Classes.Vector.magnitude, Classes.Vector.init]
  rw [show ((3 : ℝ) ^ 2 + 0 ^ 2 + 0 ^ 2) = 3 ^ 2 by norm_num]
  exact Real.sqrt_sq (by norm_num)

/-- C1 counterexample: the two source variants of vectorProjectionOnVector
do NOT compute the same function.  At v = Vector(1, 0, 0) and
w = Vector(3, 0, 0) the classes.py variant rounds the scalar
dot / magnitude squared = 1/3 to 0.333 before scaling, returning
(0.999, 0, 0), while the fizzicks.py variant returns
w scaled by exactly 1/3, that is (1, 0, 0), and 0.999 differs from 1. -/
theorem C1_counterexample :
    Classes.Vector.vectorProjectionOnVector (Classes.Vector.init 1 0 0)
        (Classes.Vector.init 3 0 0) =
      Except.ok (Classes.Vector.init (999 / 1000) 0 0) ∧
    Fizzicks.Vector.vectorProjectionOnVector (Fizzicks.Vector.init 1 0 0)
        (Fizzicks.Vector.init 3 0 0) =
      Except.ok (Fizzicks.Vector.init 1 0 0) ∧
    (999 / 1000 : ℝ) ≠ 1 := by
  have hdotC : Classes.Vector.dotProduct (Classes.Vector.init 1 0 0)
      (Classes.Vector.init 3 0 0) = 3 := by
    norm_num [Classes.Vector.dotProduct, Classes.Vector.init]
  have hdotF : Fizzicks.Vector.dotProduct (Fizzicks.Vector.init 1 0 0)
      (Fizzicks.Vector.init 3 0 0) = 3 := by
    norm_num [Fizzicks.Vector.dotProduct, Fizzicks.Vector.init]
  refine ⟨?_, ?_, by norm_num⟩
  · simp only [Classes.Vector.vectorProjectionOnVector, hdotC,
      classes_magnitude_300]
    rw [show ((3 : ℝ) ^ 2) = 9 by norm_num, pyDiv_ok 3 9 (by norm_num)]
    simp only [ok_bind]
    rw [show ((3 : ℝ) / 9) = 1 / 3 by norm_num, pyRound3_one_third]
    simp only [pure_eq_ok, Classes.Vector.scale, Classes.Vector.init]
    norm_num
  · simp only [Fizzicks.Vector.vectorProjectionOnVector,
      Fizzicks.Vector.scalarProjectionOnVector, hdotF,
      fizzicks_magnitude_300]
    rw [pyDiv_ok 3 3 (by norm_num)]
    simp only [ok_bind]
    rw [show ((3 : ℝ) / 3) = 1 by norm_num, pyDiv_ok 1 3 (by norm_num)]
    simp only [ok_bind, pure_eq_ok, Fizzicks.Vector.scale,
      Fizzicks.Vector.init]
    norm_num

/-- C1 amended: for every v and every w of nonzero magnitude, the
fizzicks.py variant of vectorProjectionOnVector returns w scaled uniformly
by exactly dot(v, w) / magnitude(w) squared, while the classes.py variant
returns w scaled uniformly by that same scalar ROUNDED to 3 decimal places
(Python round, half to even); the two therefore agree only when the
rounding is exact, and the claimed equality of the two variants fails in
general. -/
theorem C1_amended_holds (v w : Fizzicks.Vector) (v2 w2 : Classes.Vector)
    (hw : Fizzicks.Vector.magnitude w ≠ 0)
    (hw2 : Classes.Vector.magnitude w2 ≠ 0) :
    v.vectorProjectionOnVector w =
      Except.ok (w.scale (Fizzicks.ScaleArg.scalar
        (v.dotProduct w / Fizzicks.Vector.magnitude w ^ 2))) ∧
    v2.vectorProjectionOnVector w2 =
      Except.ok (w2.scale (Classes.ScaleArg.scalar
        (pyRound3 (v2.dotProduct w2 / Classes.Vector.magnitude w2 ^ 2)))) := by
  constructor
  · simp only [Fizzicks.Vector.vectorProjectionOnVector,
      Fizzicks.Vector.scalarProjectionOnVector]
    rw [pyDiv_ok _ _ hw]
    simp only [ok_bind]
    rw [pyDiv_ok _ _ hw]
    simp only [ok_bind]
    have hs : v.dotProduct w / Fizzicks.Vector.magnitude w /
        Fizzicks.Vector.magnitude w =
        v.dotProduct w / Fizzicks.Vector.magnitude w ^ 2 := by
      rw [div_div, sq]
    rw [hs]
    rfl
  · simp only [Classes.Vector.vectorProjectionOnVector]
    rw [pyDiv_ok _ _ (pow_ne_zero 2 hw2)]
    simp only [ok_bind]
    rfl

/-- C1 witness: the amended theorem applied at v = (1, 0, 0) and
w = (3, 0, 0), whose magnitude 3 is nonzero. -/
theorem C1_amended_witness :
    (Fizzicks.Vector.magnitude (Fizzicks.Vector.init 3 0 0) ≠ 0 ∧
      Classes.Vector.magnitude (Classes.Vector.init 3 0 0) ≠ 0) ∧
    Fizzicks.Vector.vectorProjectionOnVector (Fizzicks.Vector.init 1 0 0)
        (Fizzicks.Vector.init 3 0 0) =
      Except.ok ((Fizzicks.Vector.init 3 0 0).scale (Fizzicks.ScaleArg.scalar
        (Fizzicks.Vector.dotProduct (Fizzicks.Vector.init 1 0 0)
            (Fizzicks.Vector.init 3 0 0) /
          Fizzicks.Vector.magnitude (Fizzicks.Vector.init 3 0 0) ^ 2))) ∧
    Classes.Vector.vectorProjectionOnVector (Classes.Vector.init 1 0 0)
        (Classes.Vector.init 3 0 0) =
      Except.ok ((Classes.Vector.init 3 0 0).scale (Classes.ScaleArg.scalar
        (pyRound3 (Classes.Vector.dotProduct (Classes.Vector.init 1 0 0)
            (Classes.Vector.init 3 0 0) /
          Classes.Vector.magnitude (Classes.Vector.init 3 0 0) ^ 2)))) := by
  have h1 : Fizzicks.Vector.magnitude (Fizzicks.Vector.init 3 0 0) ≠ 0 := by
    rw [fizzicks_magnitude_300]
    norm_num
  have h2 : Classes.Vector.magnitude (Classes.Vector.init 3 0 0) ≠ 0 := by
    rw [classes_magnitude_300]
    norm_num
  obtain ⟨a, b⟩ := C1_amended_holds (Fizzicks.Vector.init 1 0 0)
    (Fizzicks.Vector.init 3 0 0) (Classes.Vector.init 1 0 0)
    (Classes.Vector.init 3 0 0) h1 h2
  exact ⟨⟨h1, h2⟩, a, b⟩
